import Mathlib

/-!
Shallow embedding of `src/main.py`, a small Google Calendar utility with four
operations: `get_calendar_service` (authentication), `fetch_events`,
`add_event` and `create_calendar`.  The remote service is modelled as an
oracle (`Service`): a record of response functions for the four API calls the
program issues.  Each embedded operation returns its Python return value
(wrapped in `Except` to model `assert` failures and propagated exceptions)
together with an explicit trace of the network calls it issued and of the
lines it printed, so that claims about "zero network calls" and about
verbosity can be stated directly.
-/

/-- A credential as loaded from `token.json`: the fields of the Google
`Credentials` object that the program inspects (`valid`, `expired`,
`refresh_token`). -/
structure Creds where
  valid : Bool
  expired : Bool
  refreshToken : Bool
deriving Repr, DecidableEq

/-- Errors the authenticator can surface: a failed `creds.refresh(Request())`
call, a missing/invalid `credentials.json`, or a failed interactive consent
flow (`flow.run_local_server`). -/
inductive AuthError where
  | refreshFailed
  | configError
  | flowFailed
deriving Repr, DecidableEq

/-- The local/remote world the authenticator runs against: whether
`token.json` exists and what it holds, whether `credentials.json` is a valid
client-secret file, and the outcomes of the refresh network call and of the
interactive consent flow. -/
structure AuthWorld where
  tokenFile : Option Creds
  clientSecretsOk : Bool
  refreshResult : Except Unit Creds
  flowResult : Except Unit Creds

/-- What a run of `get_calendar_service` produces on success: the credential
the returned service is built from, which of the two re-auth paths ran,
whether `token.json` was rewritten, and the diagnostic lines printed. -/
structure AuthOutcome where
  creds : Creds
  refreshCalled : Bool
  flowCalled : Bool
  tokenWritten : Bool
  printed : List String
deriving Repr, DecidableEq

/-- The diagnostic line `get_calendar_service` prints when verbosity is on. -/
def authPrinted (verbosity : Bool) : List String :=
  if verbosity then ["Authenticated Google Calendar API service."] else []

/-- The interactive consent path: `InstalledAppFlow.from_client_secrets_file`
followed by `flow.run_local_server(port=0)`. -/
def runFlow (w : AuthWorld) : Except AuthError Creds :=
  if !w.clientSecretsOk then .error .configError
  else
    match w.flowResult with
    | .ok c => .ok c
    | .error _ => .error .flowFailed

/-- Embedding of `get_calendar_service` (src/main.py lines 13-39): load
`token.json` if present; if the credential is missing or invalid, refresh it
when it is expired and has a refresh token (an unguarded network call whose
failure propagates), otherwise run the interactive flow; persist the new
credential; build and return the service. -/
def get_calendar_service (w : AuthWorld) (verbosity : Bool) :
    Except AuthError AuthOutcome :=
  match w.tokenFile with
  | some c =>
    if c.valid then
      .ok { creds := c, refreshCalled := false, flowCalled := false,
            tokenWritten := false, printed := authPrinted verbosity }
    else if c.expired && c.refreshToken then
      match w.refreshResult with
      | .ok c2 =>
        .ok { creds := c2, refreshCalled := true, flowCalled := false,
              tokenWritten := true, printed := authPrinted verbosity }
      | .error _ => .error .refreshFailed
    else
      match runFlow w with
      | .ok c2 =>
        .ok { creds := c2, refreshCalled := false, flowCalled := true,
              tokenWritten := true, printed := authPrinted verbosity }
      | .error e => .error e
  | none =>
    match runFlow w with
    | .ok c2 =>
      .ok { creds := c2, refreshCalled := false, flowCalled := true,
            tokenWritten := true, printed := authPrinted verbosity }
    | .error e => .error e

/-- One entry of the `calendarList().list()` response: `id` and `summary`. -/
structure CalendarEntry where
  id : String
  summary : String
deriving Repr, DecidableEq

/-- The `start`/`end` object of a service event: an optional `dateTime`
value and an optional whole-day `date` value. -/
structure EventTime where
  dateTime : Option String
  date : Option String
deriving Repr, DecidableEq

/-- An event as returned by `events().list()`: optional `summary`, and
`start`/`end` objects. -/
structure GEvent where
  summary : Option String
  start : EventTime
  end_ : EventTime
deriving Repr, DecidableEq

/-- One row of the tabular fetch result. -/
structure EventRow where
  calendarName : String
  eventSummary : String
  eventStart : Option String
  eventEnd : Option String
deriving Repr, DecidableEq

/-- The body the program builds for `events().insert`. -/
structure EventBody where
  summary : String
  location : String
  description : String
  startDateTime : String
  startTimeZone : String
  endDateTime : String
  endTimeZone : String
deriving Repr, DecidableEq

/-- The body the program builds for `calendars().insert`. -/
structure CalendarBody where
  summary : String
  timeZone : String
deriving Repr, DecidableEq

/-- The `events().insert` response, of which the program reads `htmlLink`. -/
structure InsertedEvent where
  htmlLink : Option String
deriving Repr, DecidableEq

/-- The `calendars().insert` response, of which the program reads `summary`
and `id`. -/
structure CreatedCalendar where
  summary : String
  id : String
deriving Repr, DecidableEq

/-- A network call issued by the program, with its arguments. -/
inductive NetCall where
  | calendarListList
  | eventsList (calendarId : String) (timeMin : String) (timeMax : String)
  | eventsInsert (calendarId : String) (body : EventBody)
  | calendarsInsert (body : CalendarBody)
deriving Repr, DecidableEq

/-- The remote service as an oracle: its response to each of the four API
calls the program can issue. -/
structure Service where
  calendarList : List CalendarEntry
  eventsList : String → String → String → List GEvent
  insertEvent : String → EventBody → InsertedEvent
  insertCalendar : CalendarBody → CreatedCalendar

/-- A Python-level failure: a failed `assert` (with its message). -/
inductive PyError where
  | assertionError (msg : String)
deriving Repr, DecidableEq

/-- The Python return value of `add_event` / `create_calendar`: `None`
(the functions have no `return` statement) or an event reference. -/
inductive PyRet where
  | pyNone
  | eventRef (e : InsertedEvent)
deriving Repr, DecidableEq

instance {ε α : Type} [DecidableEq ε] [DecidableEq α] : DecidableEq (Except ε α) :=
  fun x y =>
    match x, y with
    | .ok a, .ok b =>
      if h : a = b then .isTrue (by rw [h])
      else .isFalse (by intro hc; cases hc; exact h rfl)
    | .error a, .error b =>
      if h : a = b then .isTrue (by rw [h])
      else .isFalse (by intro hc; cases hc; exact h rfl)
    | .ok _, .error _ => .isFalse (by intro hc; cases hc)
    | .error _, .ok _ => .isFalse (by intro hc; cases hc)

/-- A calendar day, the valid input shape of `fetch_events`'s `date`. -/
structure DateYMD where
  year : Nat
  month : Nat
  day : Nat
deriving Repr, DecidableEq

/-- Two-digit zero padding, as in `strftime`. -/
def pad2 (n : Nat) : String :=
  if n < 10 then "0" ++ toString n else toString n

/-- Four-digit zero padding, as in `strftime`. -/
def pad4 (n : Nat) : String :=
  if n < 10 then "000" ++ toString n
  else if n < 100 then "00" ++ toString n
  else if n < 1000 then "0" ++ toString n
  else toString n

/-- `strftime` rendering of the date part, `%Y-%m-%d`. -/
def fmtDate (d : DateYMD) : String :=
  pad4 d.year ++ "-" ++ pad2 d.month ++ "-" ++ pad2 d.day

/-- `time_min`: the day formatted with the literal suffix
`T00:00:00+02:00` (src/main.py line 56). -/
def time_min (d : DateYMD) : String :=
  fmtDate d ++ "T00:00:00+02:00"

/-- `time_max`: the day formatted with the literal suffix
`T23:59:59+02:00` (src/main.py line 57). -/
def time_max (d : DateYMD) : String :=
  fmtDate d ++ "T23:59:59+02:00"

/-- The per-calendar diagnostic line for an empty list result. -/
def noEventsMsg (calendarName : String) : String :=
  "No events found for calendar: " ++ calendarName

/-- Projection of one service event into an `EventRow`
(src/main.py lines 79-86): summary defaults to `Unknown`; start/end take the
`dateTime` value when present, else the `date` value. -/
def projectEvent (calendarName : String) (event : GEvent) : EventRow :=
  { calendarName := calendarName
    eventSummary := match event.summary with
      | some s => s
      | none => "Unknown"
    eventStart := match event.start.dateTime with
      | some s => some s
      | none => event.start.date
    eventEnd := match event.end_.dateTime with
      | some s => some s
      | none => event.end_.date }

/-- Result of a `fetch_events` run: the returned rows (or an assertion
failure), the network calls issued in order, the printed lines, and whether
`warnings.warn` fired. -/
structure FetchResult where
  ret : Except PyError (List EventRow)
  calls : List NetCall
  printed : List String
  warned : Bool
deriving Repr, DecidableEq

/-- Embedding of `fetch_events` (src/main.py lines 42-91): assert the
service, compute the fixed-offset day window, enumerate calendars, list each
calendar's events in the window, append one projected row per event, warn if
the aggregate table is empty, return the table. -/
def fetch_events (service : Option Service) (date : DateYMD)
    (verbosity : Bool) : FetchResult :=
  match service with
  | none =>
    { ret := .error (.assertionError "Service must be initialized.")
      calls := [], printed := [], warned := false }
  | some svc =>
    let tmin := time_min date
    let tmax := time_max date
    let printedHead :=
      if verbosity then ["Fetching events for " ++ fmtDate date ++ "."] else []
    let rows := svc.calendarList.flatMap fun cal =>
      (svc.eventsList cal.id tmin tmax).map (projectEvent cal.summary)
    let calls := NetCall.calendarListList ::
      svc.calendarList.map fun cal => NetCall.eventsList cal.id tmin tmax
    let printedLoop := svc.calendarList.flatMap fun cal =>
      if (svc.eventsList cal.id tmin tmax).isEmpty && verbosity then
        [noEventsMsg cal.summary]
      else []
    { ret := .ok rows
      calls := calls
      printed := printedHead ++ printedLoop
      warned := rows.isEmpty }

/-- Result of an `add_event` run: the Python return value (or an assertion
failure), the network calls issued, and the printed lines. -/
structure AddEventResult where
  ret : Except PyError PyRet
  calls : List NetCall
  printed : List String
deriving Repr, DecidableEq

/-- Rendering of an optional value inside an f-string (`None` when absent). -/
def optShow : Option String → String
  | some s => s
  | none => "None"

/-- Embedding of `add_event` (src/main.py lines 94-121): assert the service
and the four essential fields (Python truthiness: empty string is falsy),
build the payload with the hardcoded `Asia/Jerusalem` time zone on both
bounds, issue one insert call, optionally print the link, and fall off the
end (returning `None`). -/
def add_event (service : Option Service) (calendar_id : String)
    (summary : String) (start_time : String) (end_time : String)
    (description : String) (location : String) (verbosity : Bool) :
    AddEventResult :=
  match service with
  | none =>
    { ret := .error (.assertionError "Service must be initialized.")
      calls := [], printed := [] }
  | some svc =>
    if calendar_id = "" || summary = "" || start_time = "" || end_time = "" then
      { ret := .error (.assertionError "Essential event details must be provided.")
        calls := [], printed := [] }
    else
      let body : EventBody :=
        { summary := summary, location := location, description := description
          startDateTime := start_time, startTimeZone := "Asia/Jerusalem"
          endDateTime := end_time, endTimeZone := "Asia/Jerusalem" }
      let inserted := svc.insertEvent calendar_id body
      { ret := .ok .pyNone
        calls := [.eventsInsert calendar_id body]
        printed :=
          if verbosity then ["Event created: " ++ optShow inserted.htmlLink]
          else [] }

/-- Result of a `create_calendar` run. -/
structure CreateCalendarResult where
  ret : Except PyError PyRet
  calls : List NetCall
  printed : List String
deriving Repr, DecidableEq

/-- Embedding of `create_calendar` (src/main.py lines 124-142): assert the
service and a non-empty summary, issue one calendar-insert call with the
hardcoded time zone, optionally print, and fall off the end (returning
`None`). -/
def create_calendar (service : Option Service) (summary : String)
    (verbosity : Bool) : CreateCalendarResult :=
  match service with
  | none =>
    { ret := .error (.assertionError "Service must be initialized.")
      calls := [], printed := [] }
  | some svc =>
    if summary = "" then
      { ret := .error (.assertionError "Calendar summary must be provided.")
        calls := [], printed := [] }
    else
      let body : CalendarBody := { summary := summary, timeZone := "Asia/Jerusalem" }
      let created := svc.insertCalendar body
      { ret := .ok .pyNone
        calls := [.calendarsInsert body]
        printed :=
          if verbosity then
            ["Created calendar: " ++ created.summary ++ ", ID: " ++ created.id]
          else [] }

/-- The rows of a fetch result (empty when the call failed). -/
def fetchRows (r : FetchResult) : List EventRow :=
  match r.ret with
  | .ok rows => rows
  | .error _ => []

/-- Lexicographic comparison of character lists, the order under which ISO
timestamp strings compare chronologically. -/
def charListLe : List Char → List Char → Bool
  | [], _ => true
  | _ :: _, [] => false
  | a :: as, b :: bs => if a < b then true else if b < a then false else charListLe as bs

/-- Lexicographic order on strings (the order of ISO timestamps). -/
def strLe (a b : String) : Prop := charListLe a.data b.data = true

instance (a b : String) : Decidable (strLe a b) := by
  unfold strLe; exact inferInstance

/-- Ordering constraint on an optional start/end pair: when both values are
present, start must not exceed end. -/
def timeLe (s e : Option String) : Prop :=
  match s, e with
  | some a, some b => strLe a b
  | _, _ => True

instance (s e : Option String) : Decidable (timeLe s e) := by
  unfold timeLe
  match s, e with
  | some a, some b => exact inferInstance
  | some _, none => exact inferInstance
  | none, some _ => exact inferInstance
  | none, none => exact inferInstance

/-- The credential component of an authenticator result: the part of the
outcome that determines the returned service. -/
def authRet (r : Except AuthError AuthOutcome) : Except AuthError Creds :=
  r.map fun o => o.creds

/-- The calendar entry of the concrete test service. -/
def calWork : CalendarEntry := { id := "c1", summary := "Work" }

/-- A concrete well-formed event (start before end). -/
def evWork : GEvent :=
  { summary := some "Standup"
    start := { dateTime := some "2023-09-13T09:00:00+02:00", date := none }
    end_ := { dateTime := some "2023-09-13T10:00:00+02:00", date := none } }

/-- A concrete malformed event whose end value precedes its start value. -/
def evBackwards : GEvent :=
  { summary := some "Backwards"
    start := { dateTime := some "B", date := none }
    end_ := { dateTime := some "A", date := none } }

/-- A concrete service: one calendar holding one well-formed event; inserts
succeed and return a reference carrying a user-facing link. -/
def svcWork : Service :=
  { calendarList := [calWork]
    eventsList := fun _ _ _ => [evWork]
    insertEvent := fun _ _ => { htmlLink := some "https://calendar.example/event1" }
    insertCalendar := fun body => { summary := body.summary, id := "cal-new" } }

/-- A concrete service with one calendar and no events at all. -/
def svcEmpty : Service :=
  { calendarList := [calWork]
    eventsList := fun _ _ _ => []
    insertEvent := fun _ _ => { htmlLink := some "https://calendar.example/event1" }
    insertCalendar := fun body => { summary := body.summary, id := "cal-new" } }

/-- A concrete service returning the malformed event. -/
def svcBad : Service :=
  { calendarList := [calWork]
    eventsList := fun _ _ _ => [evBackwards]
    insertEvent := fun _ _ => { htmlLink := none }
    insertCalendar := fun body => { summary := body.summary, id := "cal-new" } }

/-- The demonstration date of the program's entry point. -/
def d0 : DateYMD := { year := 2023, month := 9, day := 13 }

/-- An authenticator world holding an expired credential with a refresh
token, whose refresh network call fails while the interactive flow would
succeed. -/
def wRefreshFail : AuthWorld :=
  { tokenFile := some { valid := false, expired := true, refreshToken := true }
    clientSecretsOk := true
    refreshResult := .error ()
    flowResult := .ok { valid := true, expired := false, refreshToken := true } }

/-- C1: `add_event` called with an empty `calendar_id`, `summary`,
`start_time` or `end_time` fails with the local assertion (validation) error
and issues zero network calls. -/
theorem add_event_empty_field_validates (svc : Service)
    (calendar_id summary start_time end_time description location : String)
    (verbosity : Bool)
    (h : calendar_id = "" ∨ summary = "" ∨ start_time = "" ∨ end_time = "") :
    (add_event (some svc) calendar_id summary start_time end_time description
        location verbosity).ret
      = .error (.assertionError "Essential event details must be provided.") ∧
    (add_event (some svc) calendar_id summary start_time end_time description
        location verbosity).calls = [] := by
  unfold add_event
  rcases h with h | h | h | h <;> simp [h]

/-- Witness for C1 at a concrete empty `calendar_id`. -/
theorem add_event_empty_field_validates_witness :
    (add_event (some svcWork) "" "Meeting" "2023-09-13T10:00:00"
        "2023-09-13T11:00:00" "" "" false).ret
      = .error (.assertionError "Essential event details must be provided.") ∧
    (add_event (some svcWork) "" "Meeting" "2023-09-13T10:00:00"
        "2023-09-13T11:00:00" "" "" false).calls = [] :=
  add_event_empty_field_validates svcWork "" "Meeting" "2023-09-13T10:00:00"
    "2023-09-13T11:00:00" "" "" false (Or.inl rfl)

/-- C8: `create_calendar` with an empty title fails with the local assertion
(validation) error and issues zero network calls. -/
theorem create_calendar_empty_title_validates (svc : Service) (verbosity : Bool) :
    (create_calendar (some svc) "" verbosity).ret
      = .error (.assertionError "Calendar summary must be provided.") ∧
    (create_calendar (some svc) "" verbosity).calls = [] := by
  unfold create_calendar
  simp

/-- C10: calling `fetch_events`, `add_event` or `create_calendar` with no
service fails with the service assertion and issues zero network calls. -/
theorem none_service_assertion_fails (date : DateYMD)
    (cid s st et de lo t : String) (v : Bool) :
    ((fetch_events none date v).ret
        = .error (.assertionError "Service must be initialized.") ∧
      (fetch_events none date v).calls = []) ∧
    ((add_event none cid s st et de lo v).ret
        = .error (.assertionError "Service must be initialized.") ∧
      (add_event none cid s st et de lo v).calls = []) ∧
    ((create_calendar none t v).ret
        = .error (.assertionError "Service must be initialized.") ∧
      (create_calendar none t v).calls = []) :=
  ⟨⟨rfl, rfl⟩, ⟨rfl, rfl⟩, rfl, rfl⟩

/-- C7 counterexample: with a persisted expired credential holding a refresh
token and a failing refresh call, `get_calendar_service` fails with the
refresh error — it does not fall back to the interactive consent flow. -/
theorem refresh_failure_fallback_cex :
    get_calendar_service wRefreshFail false = .error .refreshFailed := rfl

/-- C7 amended: when the persisted credential is expired and has a refresh
token and the refresh network call fails, `get_calendar_service` propagates
the refresh failure as an error (the interactive flow is never reached). -/
theorem refresh_failure_propagates (w : AuthWorld) (v : Bool) (c : Creds)
    (h1 : w.tokenFile = some c) (h2 : c.valid = false) (h3 : c.expired = true)
    (h4 : c.refreshToken = true) (h5 : w.refreshResult = .error ()) :
    get_calendar_service w v = .error .refreshFailed := by
  unfold get_calendar_service
  rw [h1]
  simp [h2, h3, h4, h5]

/-- Witness for C7's amended statement at the concrete failing world. -/
theorem refresh_failure_propagates_witness :
    get_calendar_service wRefreshFail true = .error .refreshFailed :=
  refresh_failure_propagates wRefreshFail true
    { valid := false, expired := true, refreshToken := true }
    rfl rfl rfl rfl rfl

/-- C2 counterexample: even when the service-side insert succeeds and its
response carries a user-facing link, a fully valid `add_event` call does not
return an event reference — the function returns `None`. -/
theorem add_event_no_reference_cex :
    (add_event (some svcWork) "primary" "Meeting" "2023-09-13T10:00:00"
        "2023-09-13T11:00:00" "" "" false).ret = .ok .pyNone ∧
    ¬ ∃ e : InsertedEvent,
      (add_event (some svcWork) "primary" "Meeting" "2023-09-13T10:00:00"
          "2023-09-13T11:00:00" "" "" false).ret = .ok (.eventRef e) := by
  refine ⟨rfl, ?_⟩
  rintro ⟨e, he⟩
  have h0 : (add_event (some svcWork) "primary" "Meeting" "2023-09-13T10:00:00"
      "2023-09-13T11:00:00" "" "" false).ret = .ok .pyNone := rfl
  rw [h0] at he
  exact PyRet.noConfusion (Except.ok.inj he)

/-- C2 amended: a call to `add_event` with non-empty `calendar_id`,
`summary`, `start_time` and `end_time` succeeds, issues exactly one insert
call carrying the constructed payload, and returns `None` — the
service-assigned reference is not returned (its link is only printed when
verbosity is on). -/
theorem add_event_success_returns_none (svc : Service)
    (cid s st et de lo : String) (v : Bool)
    (h1 : cid ≠ "") (h2 : s ≠ "") (h3 : st ≠ "") (h4 : et ≠ "") :
    (add_event (some svc) cid s st et de lo v).ret = .ok .pyNone ∧
    (add_event (some svc) cid s st et de lo v).calls =
      [NetCall.eventsInsert cid
        { summary := s, location := lo, description := de
          startDateTime := st, startTimeZone := "Asia/Jerusalem"
          endDateTime := et, endTimeZone := "Asia/Jerusalem" }] := by
  unfold add_event
  simp [h1, h2, h3, h4]

/-- Witness for C2's amended statement at concrete valid inputs. -/
theorem add_event_success_returns_none_witness :
    (add_event (some svcWork) "primary" "Meeting" "2023-09-13T10:00:00"
        "2023-09-13T11:00:00" "" "" true).ret = .ok .pyNone ∧
    (add_event (some svcWork) "primary" "Meeting" "2023-09-13T10:00:00"
        "2023-09-13T11:00:00" "" "" true).calls =
      [NetCall.eventsInsert "primary"
        { summary := "Meeting", location := "", description := ""
          startDateTime := "2023-09-13T10:00:00"
          startTimeZone := "Asia/Jerusalem"
          endDateTime := "2023-09-13T11:00:00"
          endTimeZone := "Asia/Jerusalem" }] :=
  add_event_success_returns_none svcWork "primary" "Meeting"
    "2023-09-13T10:00:00" "2023-09-13T11:00:00" "" "" true
    (by decide) (by decide) (by decide) (by decide)

/-- C3: when every enumerated calendar's event list for the day window is
empty, `fetch_events` warns (non-fatally) and still returns successfully
with an empty result. -/
theorem fetch_events_empty_warns (svc : Service) (date : DateYMD) (v : Bool)
    (h : ∀ cal ∈ svc.calendarList,
      svc.eventsList cal.id (time_min date) (time_max date) = []) :
    (fetch_events (some svc) date v).ret = .ok [] ∧
    (fetch_events (some svc) date v).warned = true := by
  have hrows : (svc.calendarList.flatMap fun cal =>
      (svc.eventsList cal.id (time_min date) (time_max date)).map
        (projectEvent cal.summary)) = [] := by
    apply List.flatMap_eq_nil_iff.mpr
    intro cal hc
    rw [h cal hc]
    rfl
  constructor
  · show Except.ok (svc.calendarList.flatMap fun cal =>
        (svc.eventsList cal.id (time_min date) (time_max date)).map
          (projectEvent cal.summary)) = Except.ok []
    rw [hrows]
  · show (svc.calendarList.flatMap fun cal =>
        (svc.eventsList cal.id (time_min date) (time_max date)).map
          (projectEvent cal.summary)).isEmpty = true
    rw [hrows]
    rfl

/-- Witness for C3 at a concrete service with a calendar and no events. -/
theorem fetch_events_empty_warns_witness :
    (fetch_events (some svcEmpty) d0 false).ret = .ok [] ∧
    (fetch_events (some svcEmpty) d0 false).warned = true :=
  fetch_events_empty_warns svcEmpty d0 false (fun _ _ => rfl)

/-- C6: every per-calendar list call issued by `fetch_events` carries the
closed window of the requested day with the literal fixed offset:
`timeMin = <day>T00:00:00+02:00` and `timeMax = <day>T23:59:59+02:00`. -/
theorem fetch_events_window_bounds (svc : Service) (date : DateYMD) (v : Bool)
    (cid tmin tmax : String)
    (h : NetCall.eventsList cid tmin tmax
      ∈ (fetch_events (some svc) date v).calls) :
    tmin = fmtDate date ++ "T00:00:00+02:00" ∧
    tmax = fmtDate date ++ "T23:59:59+02:00" := by
  have hc : (fetch_events (some svc) date v).calls
      = NetCall.calendarListList ::
        svc.calendarList.map (fun cal =>
          NetCall.eventsList cal.id (time_min date) (time_max date)) := rfl
  rw [hc] at h
  rcases List.mem_cons.mp h with h | h
  · exact NetCall.noConfusion h
  · rcases List.mem_map.mp h with ⟨cal, _, heq⟩
    injection heq with e1 e2 e3
    subst e2
    subst e3
    exact ⟨rfl, rfl⟩

/-- Witness for C6 at the concrete one-calendar service. -/
theorem fetch_events_window_bounds_witness :
    time_min d0 = fmtDate d0 ++ "T00:00:00+02:00" ∧
    time_max d0 = fmtDate d0 ++ "T23:59:59+02:00" :=
  fetch_events_window_bounds svcWork d0 false "c1" (time_min d0) (time_max d0)
    (List.Mem.tail _ (List.Mem.head _))

/-- C9: toggling verbosity changes none of the four operations' return
values — only the printed diagnostics differ. -/
theorem verbosity_preserves_return_values (w : AuthWorld) (svc : Option Service)
    (date : DateYMD) (cid s st et de lo t : String) :
    authRet (get_calendar_service w true) = authRet (get_calendar_service w false) ∧
    (fetch_events svc date true).ret = (fetch_events svc date false).ret ∧
    (add_event svc cid s st et de lo true).ret
      = (add_event svc cid s st et de lo false).ret ∧
    (create_calendar svc t true).ret = (create_calendar svc t false).ret := by
  refine ⟨?_, ?_, ?_, ?_⟩
  · unfold get_calendar_service authRet
    cases w.tokenFile with
    | none =>
      dsimp only
      cases runFlow w <;> rfl
    | some c =>
      dsimp only
      cases hv : c.valid with
      | true => rfl
      | false =>
        cases he : c.expired && c.refreshToken with
        | true => cases w.refreshResult <;> rfl
        | false => cases runFlow w <;> rfl
  · cases svc <;> rfl
  · cases svc with
    | none => rfl
    | some sv =>
      simp only [add_event]
      split <;> rfl
  · cases svc with
    | none => rfl
    | some sv =>
      simp only [create_calendar]
      split <;> rfl

/-- C4 counterexample: against a service returning an event whose end value
precedes its start value, `fetch_events` returns a row with start greater
than end — the code performs no local ordering check. -/
theorem fetch_events_start_le_end_cex :
    ¬ ∀ row ∈ fetchRows (fetch_events (some svcBad) d0 false),
      timeLe row.eventStart row.eventEnd := by
  intro h
  have hm : projectEvent "Work" evBackwards
      ∈ fetchRows (fetch_events (some svcBad) d0 false) :=
    List.Mem.head _
  exact absurd (h _ hm) (by decide)

/-- C4 amended: for every service and date, (1) unconditionally, every row
returned by `fetch_events` has its calendar name among the summaries of the
enumerated calendars; and (2) every row has start ≤ end provided each event
the service returned projects to an ordered start/end pair — ordering is
inherited from the service responses, not checked locally. -/
theorem fetch_events_rows_sound (svc : Service) (date : DateYMD) (v : Bool) :
    (∀ row ∈ fetchRows (fetch_events (some svc) date v),
      row.calendarName ∈ svc.calendarList.map (fun cal => cal.summary)) ∧
    ((∀ cal ∈ svc.calendarList,
        ∀ e ∈ svc.eventsList cal.id (time_min date) (time_max date),
          timeLe (projectEvent cal.summary e).eventStart
            (projectEvent cal.summary e).eventEnd) →
      ∀ row ∈ fetchRows (fetch_events (some svc) date v),
        timeLe row.eventStart row.eventEnd) := by
  have hr : fetchRows (fetch_events (some svc) date v)
      = svc.calendarList.flatMap fun cal =>
          (svc.eventsList cal.id (time_min date) (time_max date)).map
            (projectEvent cal.summary) := rfl
  constructor
  · intro row hrow
    rw [hr] at hrow
    rcases List.mem_flatMap.mp hrow with ⟨cal, hcal, hrow2⟩
    rcases List.mem_map.mp hrow2 with ⟨e, he, heq⟩
    subst heq
    exact List.mem_map_of_mem _ hcal
  · intro h row hrow
    rw [hr] at hrow
    rcases List.mem_flatMap.mp hrow with ⟨cal, hcal, hrow2⟩
    rcases List.mem_map.mp hrow2 with ⟨e, he, heq⟩
    subst heq
    exact h cal hcal e he

/-- Witness for C4's amended statement: at the concrete one-calendar
service, the returned row's calendar name is enumerated (by the
unconditional conjunct) and its start/end are ordered (by the conditional
conjunct, whose ordering hypothesis is discharged by evaluation). -/
theorem fetch_events_rows_sound_witness :
    (projectEvent "Work" evWork).calendarName
      ∈ svcWork.calendarList.map (fun cal => cal.summary) ∧
    timeLe (projectEvent "Work" evWork).eventStart
      (projectEvent "Work" evWork).eventEnd :=
  ⟨(fetch_events_rows_sound svcWork d0 false).1
      (projectEvent "Work" evWork) (List.Mem.head _),
    (fetch_events_rows_sound svcWork d0 false).2 (by decide)
      (projectEvent "Work" evWork) (List.Mem.head _)⟩

/-- C5: every event the service returns for an enumerated calendar appears
in the fetch result as a row whose title defaults to the placeholder
`Unknown` when absent and whose start/end take the date-time value when
present, else the whole-day date value. -/
theorem fetch_events_projects_each_event (svc : Service) (date : DateYMD)
    (v : Bool) (cal : CalendarEntry) (e : GEvent)
    (hcal : cal ∈ svc.calendarList)
    (he : e ∈ svc.eventsList cal.id (time_min date) (time_max date)) :
    ∃ row ∈ fetchRows (fetch_events (some svc) date v),
      row.calendarName = cal.summary ∧
      row.eventSummary = (match e.summary with
        | some s => s
        | none => "Unknown") ∧
      row.eventStart = (match e.start.dateTime with
        | some s => some s
        | none => e.start.date) ∧
      row.eventEnd = (match e.end_.dateTime with
        | some s => some s
        | none => e.end_.date) := by
  refine ⟨projectEvent cal.summary e, ?_, rfl, rfl, rfl, rfl⟩
  have hr : fetchRows (fetch_events (some svc) date v)
      = svc.calendarList.flatMap fun c2 =>
          (svc.eventsList c2.id (time_min date) (time_max date)).map
            (projectEvent c2.summary) := rfl
  rw [hr]
  exact List.mem_flatMap.mpr ⟨cal, hcal, List.mem_map_of_mem _ he⟩

/-- Witness for C5 at the concrete one-calendar, one-event service. -/
theorem fetch_events_projects_each_event_witness :
    ∃ row ∈ fetchRows (fetch_events (some svcWork) d0 false),
      row.calendarName = calWork.summary ∧
      row.eventSummary = (match evWork.summary with
        | some s => s
        | none => "Unknown") ∧
      row.eventStart = (match evWork.start.dateTime with
        | some s => some s
        | none => evWork.start.date) ∧
      row.eventEnd = (match evWork.end_.dateTime with
        | some s => some s
        | none => evWork.end_.date) :=
  fetch_events_projects_each_event svcWork d0 false calWork evWork
    (List.Mem.head _) (List.Mem.head _)
